import Mathlib

/-!
Verification of the vitgo asset server and manifest analyzer.

Shallow embedding of the two source files:
 - utils.go: manifest parsing/analysis (analyzePackageJSON, getViteVersion,
   SetDevelopmentDefaults, SetProductionDefaults);
 - asset-server.go: the guarded file-serving HTTP handler (guardedFileServer),
   the directory-listing guard (wrapperFS.Open) and the access logger
   (logRequest / WriterWrapper).

Go maps are modelled as association lists with first-match lookup, Go's
multi-return (value, error) as Except / products, and the mutation of the
configuration receiver as explicit state passing.  External collaborators
(the fs.FS store, http.FileServer, the embedded preamble resource) are
modelled as explicit function-valued parameters, since the handler only
observes their results.  Go string primitives are embedded as structurally
recursive functions over the character list of a string so that every
definition evaluates by kernel reduction.
-/

deriving instance DecidableEq for Except

/-! ## Go string primitives -/

/-- strings.Split with a one-character separator, the only form the handler
uses: Go's Split always yields at least one (possibly empty) piece. -/
def splitChars (sep : Char) : List Char → List (List Char)
  | [] => [[]]
  | c :: cs =>
    if c = sep then [] :: splitChars sep cs
    else
      match splitChars sep cs with
      | [] => [[c]]
      | l :: ls => (c :: l) :: ls

/-- strings.Split(s, "/"). -/
def splitSlash (s : String) : List String :=
  (splitChars '/' s.data).map (fun l => ⟨l⟩)

/-- The Go slice `s[1:]` (the handler only applies it to URL paths, whose
first byte is the one-byte "/"). -/
def stripLeading (s : String) : String :=
  ⟨s.data.drop 1⟩

/-- The check `len(stem) > 0 && stem[:1] == "."` of guardedFileServer. -/
def isHiddenStem (stem : String) : Bool :=
  decide (0 < stem.data.length) && decide (stem.data.take 1 = ['.'])

/-- Whether strings.TrimPrefix(path, "/") is shorter than path, the condition
under which http.StripPrefix "/" forwards the request. -/
def hasSlashFirst (s : String) : Bool :=
  match s.data with
  | c :: _ => c = '/'
  | [] => false

/-- strings.Replace(s, pat, "", -1) for a one-character pattern: every
occurrence removed. -/
def removeAllChar (s : String) (c : Char) : String :=
  ⟨s.data.filter (fun x => x != c)⟩

/-! ## Embedding of src/utils.go -/

/-- Parsed form of the frontend project manifest (struct PackageJSON,
src/utils.go).  The JSON field `type` is rendered as `pkgType` because `type`
cannot be an identifier here; JSON objects become association lists. -/
structure PackageJSON where
  name : String := ""
  version : String := ""
  pkgType : String := ""
  scripts : List (String × String) := []
  dependencies : List (String × String) := []
  devDependencies : List (String × String) := []
deriving DecidableEq, Repr

/-- Go map indexing `m[k]` over the association-list model of a JSON object
(`ok` is `isSome` of the result). -/
def lookupDep (m : List (String × String)) (k : String) : Option String :=
  (m.find? (fun kv => kv.fst == k)).map (fun kv => kv.snd)

/-- Result profile of analyzePackageJSON (struct JSAppParams, src/utils.go),
with Go zero values as defaults. -/
structure JSAppParams where
  JSHash : String := ""
  ViteVersion : String := ""
  ViteMajorVer : String := ""
  PackageType : String := ""
  MajorVer : String := ""
  EntryPoint : String := ""
  HasTypeScript : Bool := false
  IsVanilla : Bool := false
  VueVersion : String := ""
  ReactVersion : String := ""
  PreactVersion : String := ""
  SvelteVersion : String := ""
  LitVersion : String := ""
deriving DecidableEq, Repr

/-- The getSemVer closure of analyzePackageJSON (src/utils.go): matches the
anchored Go regular expression that strips any leading carets and requires
exactly digits.digits.digits to the end of the string; returns
(major, fullVers), both empty when the string does not match. -/
def getSemVer (verStr : String) : String × String :=
  let rest := verStr.data.dropWhile (fun c => c = '^')
  let d1 := rest.takeWhile Char.isDigit
  let r1 := rest.dropWhile Char.isDigit
  if d1.isEmpty then ("", "") else
  match r1 with
  | '.' :: r2 =>
    let d2 := r2.takeWhile Char.isDigit
    let r3 := r2.dropWhile Char.isDigit
    if d2.isEmpty then ("", "") else
    match r3 with
    | '.' :: r4 =>
      let d3 := r4.takeWhile Char.isDigit
      let r5 := r4.dropWhile Char.isDigit
      if d3.isEmpty ∨ ¬ r5.isEmpty then ("", "") else (⟨d1⟩, ⟨rest⟩)
    | _ => ("", "")
  | _ => ("", "")

/-- The fixed ordered candidate list (`supported` in analyzePackageJSON). -/
def supportedFrameworks : List String := ["vue", "react", "preact", "svelte", "lit"]

/-- The framework-detection loop of analyzePackageJSON (src/utils.go):
walks the candidate list, looking svelte up in devDependencies and every
other candidate up in dependencies; the first hit assigns PackageType,
MajorVer, the framework version field and the entry point, and stops
(the Go `break`). -/
def frameworkLoop (pkg : PackageJSON) : List String → JSAppParams → JSAppParams
  | [], out => out
  | p :: restList, out =>
    if p = "svelte" then
      match lookupDep pkg.devDependencies "svelte" with
      | some sVer =>
        let mf := getSemVer sVer
        { out with
          PackageType := p
          MajorVer := mf.fst
          SvelteVersion := mf.snd
          EntryPoint := if out.HasTypeScript then "src/main.ts" else "src/main.js" }
      | none => frameworkLoop pkg restList out
    else
      match lookupDep pkg.dependencies p with
      | some vers =>
        let mf := getSemVer vers
        let out1 := { out with
          PackageType := p
          MajorVer := mf.fst }
        if p = "vue" then
          { out1 with
            VueVersion := mf.snd
            EntryPoint := if out.HasTypeScript then "src/main.ts" else "src/main.js" }
        else if p = "react" then
          { out1 with
            ReactVersion := mf.snd
            EntryPoint := if out.HasTypeScript then "src/main.tsx" else "src/main.jsx" }
        else if p = "preact" then
          { out1 with
            PreactVersion := mf.snd
            EntryPoint := if out.HasTypeScript then "src/main.tsx" else "src/main.jsx" }
        else if p = "lit" then
          { out1 with
            LitVersion := mf.snd
            EntryPoint := "" }
        else
          { out1 with
            EntryPoint := "src/main.js" }
      | none => frameworkLoop pkg restList out

/-- analyzePackageJSON (src/utils.go): nil when the vite devDependency is
missing; otherwise the detected profile, falling back to vanilla when no
framework matched. -/
def analyzePackageJSON (pkgJSON : PackageJSON) : Option JSAppParams :=
  match lookupDep pkgJSON.devDependencies "vite" with
  | none => none
  | some viteVers =>
    let mf := getSemVer viteVers
    let output0 : JSAppParams := { ViteMajorVer := mf.fst, ViteVersion := mf.snd }
    let output1 := { output0 with
      HasTypeScript := (lookupDep pkgJSON.devDependencies "typescript").isSome }
    let output2 := frameworkLoop pkgJSON supportedFrameworks output1
    if output2.PackageType = "" then
      some { output2 with
        IsVanilla := true
        PackageType := "vanilla"
        EntryPoint := if output2.HasTypeScript then "src/main.ts" else "main.js" }
    else
      some output2

/-- Modelled from the spec: DEFAULT_VITE_VERSION, the overall hardcoded
build-tool version constant (defined outside the provided sources).  The spec
gives no numeral, only that it is the current, non-legacy generation, so any
value other than "2" is faithful; "3" is used. -/
def DEFAULT_VITE_VERSION : String := "3"

/-- Modelled from the spec: DEFAULT_PORT_V2, the `"3000"`-class dev-server
port used for build-tool major version "2" (defined outside the provided
sources). -/
def DEFAULT_PORT_V2 : String := "3000"

/-- Modelled from the spec: DEFAULT_PORT_V3, the newer default dev-server
port (defined outside the provided sources). -/
def DEFAULT_PORT_V3 : String := "5173"

/-- Modelled from the spec: RuntimeConfig (struct ViteConfig, defined outside
the provided sources; fields inferred from §3 of the spec and from their uses
in src/utils.go).  Go zero values are the defaults.  The fs.FS member is not a
field here: parsePackageJSON is abstracted as a function from the project
path to a parse outcome, see SetDevelopmentDefaults. -/
structure ViteConfig where
  Environment : String := ""
  JSProjectPath : String := ""
  AssetsPath : String := ""
  EntryPoint : String := ""
  Platform : String := ""
  ViteVersion : String := ""
  HTTPS : Bool := false
  DevServerDomain : String := ""
  DevServerPort : String := ""
  URLPrefix : String := ""
  DevDefaults : Option JSAppParams := none
deriving DecidableEq, Repr

/-- The `if field == "" { field = choice }` idiom of both resolution passes. -/
def setIfEmpty (cur choice : String) : String :=
  if cur = "" then choice else cur

/-- getViteVersion (src/utils.go): returns the receiver state after the call
together with the (version, error) result. -/
def getViteVersion (vc : ViteConfig) : ViteConfig × Except String String :=
  if vc.ViteVersion ≠ "" then (vc, .ok vc.ViteVersion)
  else
    match vc.DevDefaults with
    | none => (vc, .error "not Vite project")
    | some dd => ({ vc with ViteVersion := dd.ViteMajorVer }, .ok dd.ViteMajorVer)

/-- The tail of SetDevelopmentDefaults (src/utils.go) after analysis
succeeded: caches the profile, resolves the version (falling back to
DEFAULT_VITE_VERSION when getViteVersion errors), then fills each still-empty
field from the defaults.  The five guarded assignments touch five distinct
fields whose guards read only the field being assigned, so they are rendered
as one record update. -/
def applyDevDefaults (defaults : JSAppParams) (vc1 : ViteConfig) : ViteConfig :=
  let gv := getViteVersion { vc1 with DevDefaults := some defaults }
  let vc4 : ViteConfig := match gv.snd with
    | .error _ => { gv.fst with ViteVersion := DEFAULT_VITE_VERSION }
    | .ok _ => gv.fst
  let version : String := match gv.snd with
    | .error _ => DEFAULT_VITE_VERSION
    | .ok v => v
  { vc4 with
    Platform := setIfEmpty vc4.Platform defaults.PackageType
    EntryPoint := setIfEmpty vc4.EntryPoint defaults.EntryPoint
    URLPrefix := setIfEmpty vc4.URLPrefix "/src/"
    DevServerPort := setIfEmpty vc4.DevServerPort
      (if version = "2" then DEFAULT_PORT_V2 else DEFAULT_PORT_V3)
    DevServerDomain := setIfEmpty vc4.DevServerDomain "localhost" }

/-- SetDevelopmentDefaults (src/utils.go).  `pkgOf` abstracts
parsePackageJSON over the fixed, read-only file store: it maps the project
path the parser would be pointed at to the parse outcome.  The result is the
receiver state after the call together with the returned error. -/
def SetDevelopmentDefaults (pkgOf : String → Except String PackageJSON)
    (vc0 : ViteConfig) : ViteConfig × Option String :=
  let vc1 := { vc0 with JSProjectPath := setIfEmpty vc0.JSProjectPath "frontend" }
  match pkgOf vc1.JSProjectPath with
  | .error e => (vc1, some e)
  | .ok pkgJSON =>
    match analyzePackageJSON pkgJSON with
    | none => (vc1, some "invalid configuration")
    | some defaults => (applyDevDefaults defaults vc1, none)

/-- SetProductionDefaults (src/utils.go): three fill-if-empty assignments to
distinct fields, always returning a nil error. -/
def SetProductionDefaults (vc0 : ViteConfig) : ViteConfig × Option String :=
  ({ vc0 with
      JSProjectPath := setIfEmpty vc0.JSProjectPath "frontend"
      AssetsPath := setIfEmpty vc0.AssetsPath "dist"
      URLPrefix := setIfEmpty vc0.URLPrefix "/assets/" }, none)

/-! ## Embedding of src/asset-server.go -/

/-- An HTTP request as the handler observes it: the URL path and raw query,
plus the fields the access logger prints.  URL escaping is the identity in
this model (RawPath and Opaque empty). -/
structure HRequest where
  path : String := ""
  rawQuery : String := ""
  remoteAddr : String := ""
  proto : String := ""
  method : String := ""
deriving DecidableEq, Repr

/-- net/url URL.RequestURI() for a URL with empty Opaque and RawPath:
the escaped path (or "/" when empty) followed by the query if any. -/
def requestURIOf (r : HRequest) : String :=
  let result := if r.path = "" then "/" else r.path
  if r.rawQuery = "" then result else result ++ "?" ++ r.rawQuery

/-- What a downstream handler did to its http.ResponseWriter: the sequence of
WriteHeader calls and the concatenated body bytes. -/
structure DownstreamResult where
  headerWrites : List Nat := []
  body : String := ""
deriving DecidableEq, Repr

/-- WriterWrapper.RetCode once the downstream handler returned
(src/asset-server.go): initialised to 200 by NewRespWriter, overwritten by
every WriteHeader, so it ends as the last WriteHeader argument. -/
def capturedRetCode (headerWrites : List Nat) : Nat :=
  (headerWrites.getLast?).getD 200

/-- The status the client sees: net/http sends the first WriteHeader argument
and an implicit 200 when the handler only wrote the body. -/
def wireStatus (headerWrites : List Nat) : Nat :=
  (headerWrites.head?).getD 200

/-- The fields of the one line logRequest prints (src/asset-server.go). -/
structure AccessLine where
  remoteAddr : String := ""
  proto : String := ""
  method : String := ""
  uri : String := ""
  retCode : Nat := 200
deriving DecidableEq, Repr

/-- The access line logRequest formats for request `r` and captured status
`code`: RequestURI with every newline, then every carriage return, removed. -/
def accessLineFor (r : HRequest) (code : Nat) : AccessLine :=
  { remoteAddr := r.remoteAddr
    proto := r.proto
    method := r.method
    uri := removeAllChar (removeAllChar (requestURIOf r) '\n') '\r'
    retCode := code }

/-- Outcome of one request through the handler: response status, response
body, and the access-log lines emitted by logRequest. -/
structure GuardResult where
  status : Nat := 200
  body : String := ""
  accessLogs : List AccessLine := []
deriving DecidableEq, Repr

/-- http.NotFound: a 404 with net/http's standard body and, since logRequest
is not involved, no access-log line. -/
def notFoundResult : GuardResult :=
  { status := 404, body := "404 page not found\n", accessLogs := [] }

/-- logRequest (src/asset-server.go) around a file-serving handler: runs the
downstream handler through a WriterWrapper and then emits exactly one access
line carrying the captured status. -/
def logRequest (next : HRequest → DownstreamResult) (r : HRequest) : GuardResult :=
  let res := next r
  { status := wireStatus res.headerWrites
    body := res.body
    accessLogs := [accessLineFor r (capturedRetCode res.headerWrites)] }

/-- Modelled from the spec: the receiver struct VitGo (defined outside the
provided sources); only the fields guardedFileServer reads. -/
structure VitGo where
  Environment : String := ""
  Debug : Bool := false
  AssetPath : String := ""
deriving DecidableEq, Repr

/-- The handler's external collaborators, as functions from what the code
passes them to what they return:
`preamble` is embedFiles.ReadFile "react/preamble.js";
`readDirRoot` is fs.ReadDir(serveDir, ".");
`sub` maps the asset path to fs.Sub(serveDir, ·) composed with
http.FileServer, an error when fs.Sub fails;
`serveDev` is http.FileServer over the full guarded root. -/
structure ServeEnv where
  preamble : Except String String
  readDirRoot : Except String (List String)
  sub : String → Except String (HRequest → DownstreamResult)
  serveDev : HRequest → DownstreamResult

/-- The environment branch at the end of guardedFileServer
(src/asset-server.go): production serves the AssetPath subtree (404 with an
empty body when fs.Sub fails, from the bare WriteHeader), every other
environment serves the full root behind http.StripPrefix "/", which rejects
paths lacking the prefix with http.NotFound and otherwise passes the
prefix-stripped request to the logging file server. -/
def dispatchServe (vg : VitGo) (env : ServeEnv) (r : HRequest) : GuardResult :=
  if vg.Environment = "production" then
    match env.sub vg.AssetPath with
    | .error _ => { status := 404, body := "", accessLogs := [] }
    | .ok serveSub => logRequest serveSub r
  else
    if hasSlashFirst r.path then
      logRequest env.serveDev { r with path := stripLeading r.path }
    else notFoundResult

/-- guardedFileServer (src/asset-server.go).  stripPrefix is the constant
"/", so the handler drops one leading byte of the URL path, splits the
remainder on "/", rejects any non-empty segment starting with a dot,
special-cases a final segment "preamble.js" (serving the embedded bytes with
an implicit 200, or http.NotFound when the resource is unreadable), and in
debug mode enumerates the guarded root first, replying http.NotFound when
that enumeration fails.  strings.Split never returns an empty list, so the
`len(parts) > 0` guard of the source is always taken; `getLastD` renders
`parts[len(parts)-1]`. -/
def guardedFileServer (vg : VitGo) (env : ServeEnv) (r : HRequest) : GuardResult :=
  let rest := stripLeading r.path
  let parts := splitSlash rest
  if parts.any isHiddenStem then
    notFoundResult
  else
    let baseFile := parts.getLastD ""
    if baseFile = "preamble.js" then
      match env.preamble with
      | .error _ => notFoundResult
      | .ok bytes => { status := 200, body := bytes, accessLogs := [] }
    else
      if vg.Debug then
        match env.readDirRoot with
        | .error _ => notFoundResult
        | .ok _ => dispatchServe vg env r
      else dispatchServe vg env r

/-- A handle returned by the underlying store's Open: the Stat outcome
(IsDir on success), the Close outcome, and a tag distinguishing handles. -/
structure FsFile where
  statRes : Except String Bool := .ok false
  closeRes : Option String := none
  fileId : Nat := 0
deriving DecidableEq, Repr

/-- The underlying hierarchical file store (the fs.FS wrapped by wrapperFS),
reduced to the one operation the wrapper calls. -/
structure FileSystem where
  openPath : String → Except String FsFile

/-- filepath.Join(path, "index.html") for the already-clean slash-separated
paths fs.FS accepts (fs.ValidPath admits only clean relative paths, with "."
for the root). -/
def joinIndex (path : String) : String :=
  if path = "" ∨ path = "." then "index.html" else path ++ "/index.html"

/-- wrapperFS (src/asset-server.go): the directory-listing guard around an
underlying store. -/
structure wrapperFS where
  FS : FileSystem

/-- wrapperFS.Open (src/asset-server.go): propagates Open and Stat errors;
for a directory, requires index.html directly inside it, else closes the
handle and returns the Close error if closing failed, otherwise the error
from opening index.html. -/
def wrapperFS.Open (wrpr : wrapperFS) (path : String) : Except String FsFile :=
  match wrpr.FS.openPath path with
  | .error err => .error err
  | .ok f =>
    match f.statRes with
    | .error err => .error err
    | .ok isDir =>
      if isDir then
        match wrpr.FS.openPath (joinIndex path) with
        | .error err =>
          match f.closeRes with
          | some closeErr => .error closeErr
          | none => .error err
        | .ok _ => .ok f
      else .ok f

/-! ## Claim-side definitions (stated from the spec's words, for comparison
with the embedded code) -/

/-- The claim's notion of a candidate framework matching a manifest: svelte
is consulted only in the development dependencies, every other candidate only
in the runtime dependencies. -/
def matchesFramework (pkg : PackageJSON) (p : String) : Bool :=
  if p = "svelte" then (lookupDep pkg.devDependencies "svelte").isSome
  else (lookupDep pkg.dependencies p).isSome

/-- The claim's entry-point table: a pure function of the matched framework
and the typed-language flag. -/
def entryPointFor (framework : String) (typed : Bool) : String :=
  if framework = "vue" ∨ framework = "svelte" then
    (if typed then "src/main.ts" else "src/main.js")
  else if framework = "react" ∨ framework = "preact" then
    (if typed then "src/main.tsx" else "src/main.jsx")
  else if framework = "lit" then ""
  else if typed then "src/main.ts" else "main.js"

/-- The claim's dev-server port rule: decide by the operator-set version if
any, else by the detected major version, falling back to the hardcoded
build-tool version constant when both are empty. -/
def claimedDevPort (operatorVersion parsedMajor : String) : String :=
  let effective :=
    if operatorVersion ≠ "" then operatorVersion
    else if parsedMajor ≠ "" then parsedMajor
    else DEFAULT_VITE_VERSION
  if effective = "2" then DEFAULT_PORT_V2 else DEFAULT_PORT_V3

/-! ## Concrete sample inputs used by witnesses and counterexamples -/

/-- A serving environment whose root enumeration fails while plain file
serving succeeds (a root without index.html behind wrapperFS makes
fs.ReadDir(serveDir, ".") fail though files still serve). -/
def envEnumFails : ServeEnv :=
  { preamble := .ok "preamble-bytes"
    readDirRoot := .error "open .: file does not exist"
    sub := fun _ => .error "sub failed"
    serveDev := fun _ => { headerWrites := [], body := "hello" } }

/-- A serving environment where everything works. -/
def envOK : ServeEnv :=
  { preamble := .ok "preamble-bytes"
    readDirRoot := .ok ["index.html", "app.js"]
    sub := fun _ => .ok (fun _ => { headerWrites := [], body := "dist-bytes" })
    serveDev := fun _ => { headerWrites := [404], body := "nope" } }

/-- A react manifest: the spec's §8 scenario. -/
def pkgReact : PackageJSON :=
  { devDependencies := [("vite", "^4.1.0"), ("typescript", "1.0.0")]
    dependencies := [("react", "18.2.0")] }

/-- The profile analyzePackageJSON yields for pkgReact. -/
def profReact : JSAppParams :=
  { ViteVersion := "4.1.0"
    ViteMajorVer := "4"
    PackageType := "react"
    MajorVer := "18"
    EntryPoint := "src/main.tsx"
    HasTypeScript := true
    ReactVersion := "18.2.0" }

/-- A manifest declaring both vue and react runtime dependencies. -/
def pkgVueReact : PackageJSON :=
  { devDependencies := [("vite", "^4.1.0")]
    dependencies := [("vue", "3.0.0"), ("react", "18.2.0")] }

/-- A legacy-build-tool manifest (vite major version 2). -/
def pkgViteTwo : PackageJSON :=
  { devDependencies := [("vite", "^2.9.9")] }

/-- A manifest that is not a build-tool project (no vite devDependency). -/
def pkgNoVite : PackageJSON :=
  { dependencies := [("react", "18.2.0")] }

/-- A guarded store whose directory handle fails to close: path "d" is a
directory with no index.html inside, and closing it errors. -/
def storeCloseFails : wrapperFS :=
  { FS := { openPath := fun p =>
      if p = "d" then .ok { statRes := .ok true, closeRes := some "close failed", fileId := 1 }
      else .error "file does not exist" } }

/-- A framework profile the operator wrote into the configuration by hand. -/
def profOperator : JSAppParams :=
  { PackageType := "operator-profile" }

/-- The configuration SetDevelopmentDefaults produces from pkgReact on an
empty configuration — a fixed point of the development pass. -/
def vcReactDev : ViteConfig :=
  { JSProjectPath := "frontend"
    EntryPoint := "src/main.tsx"
    Platform := "react"
    ViteVersion := "4"
    DevServerDomain := "localhost"
    DevServerPort := "5173"
    URLPrefix := "/src/"
    DevDefaults := some profReact }

/-- The profile analyzePackageJSON yields for pkgViteTwo. -/
def profViteTwo : JSAppParams :=
  { ViteVersion := "2.9.9"
    ViteMajorVer := "2"
    PackageType := "vanilla"
    EntryPoint := "main.js"
    IsVanilla := true }

/-! ## Helper lemmas -/

theorem dispatchServe_debug_irrelevant (vg : VitGo) (b : Bool) (env : ServeEnv)
    (r : HRequest) : dispatchServe { vg with Debug := b } env r = dispatchServe vg env r := by
  simp [dispatchServe]

/-! ## Claim C1 -/

/-- Claim C1: for every HTTP request whose prefix-stripped path contains a
non-empty segment beginning with '.', the asset handler responds not-found
immediately, without serving any file and without logging, in every
environment. -/
theorem claim_C1_hidden_segment_not_found (vg : VitGo) (env : ServeEnv) (r : HRequest)
    (h : ∃ stem ∈ splitSlash (stripLeading r.path),
      0 < stem.data.length ∧ stem.data.take 1 = ['.']) :
    guardedFileServer vg env r = notFoundResult := by
  obtain ⟨stem, hmem, hlen, hdot⟩ := h
  have hany : (splitSlash (stripLeading r.path)).any isHiddenStem = true := by
    rw [List.any_eq_true]
    refine ⟨stem, hmem, ?_⟩
    simp only [isHiddenStem, Bool.and_eq_true, decide_eq_true_eq]
    exact ⟨hlen, hdot⟩
  unfold guardedFileServer
  simp only [hany, if_true]

/-- Witness for C1 at the request path "/.env". -/
theorem claim_C1_witness :
    guardedFileServer { Environment := "production" } envOK { path := "/.env" } = notFoundResult :=
  claim_C1_hidden_segment_not_found _ _ _ ⟨".env", by decide, by decide, by decide⟩

/-! ## Claim C2 -/

/-- Counterexample to C2 as stated: with the guarded root's enumeration
failing (a root without index.html), the same request is answered 404 when
the debug flag is on but 200 when it is off. -/
theorem claim_C2_counterexample :
    (guardedFileServer { Environment := "development", Debug := true } envEnumFails
      { path := "/app.js" }).status = 404
  ∧ (guardedFileServer { Environment := "development", Debug := false } envEnumFails
      { path := "/app.js" }).status = 200 :=
  ⟨rfl, rfl⟩

/-- Claim C2 (amended): whenever the debug-mode enumeration of the guarded
root's top-level entries succeeds, the response with the debug flag enabled
is identical to the response with it disabled; only when the enumeration
fails does debug mode change the response (to not-found). -/
theorem claim_C2_debug_response_invariant (vg : VitGo) (env : ServeEnv) (r : HRequest)
    (names : List String) (h : env.readDirRoot = .ok names) :
    guardedFileServer { vg with Debug := true } env r
      = guardedFileServer { vg with Debug := false } env r := by
  unfold guardedFileServer
  simp only [h, dispatchServe_debug_irrelevant, ite_self]

/-- Witness for the amended C2 with a successful enumeration. -/
theorem claim_C2_witness :
    guardedFileServer { Environment := "development", Debug := true } envOK { path := "/app.js" }
      = guardedFileServer { Environment := "development", Debug := false } envOK { path := "/app.js" } :=
  claim_C2_debug_response_invariant { Environment := "development" } envOK
    { path := "/app.js" } ["index.html", "app.js"] rfl

/-! ## Claim C3 -/

/-- Counterexample to C3 as stated: when the directory handle's Close itself
fails, wrapperFS.Open returns the close error, not the not-found error from
opening index.html. -/
theorem claim_C3_counterexample :
    storeCloseFails.FS.openPath "d"
        = .ok { statRes := .ok true, closeRes := some "close failed", fileId := 1 }
  ∧ storeCloseFails.FS.openPath (joinIndex "d") = .error "file does not exist"
  ∧ wrapperFS.Open storeCloseFails "d" ≠ .error "file does not exist"
  ∧ wrapperFS.Open storeCloseFails "d" = .error "close failed" := by
  refine ⟨rfl, rfl, ?_, rfl⟩
  decide

/-- Claim C3 (amended): wrapperFS.Open propagates the underlying not-found
error unchanged for absent paths; for a directory it returns the handle only
when index.html exists directly inside, and when index.html is absent it
closes the handle and returns the not-found error — unless closing itself
fails, in which case the close error is returned; in either case no file is
ever returned for such a directory. -/
theorem claim_C3_directory_guard :
    (∀ (w : wrapperFS) (path err : String), w.FS.openPath path = .error err →
        wrapperFS.Open w path = .error err)
  ∧ (∀ (w : wrapperFS) (path : String) (f : FsFile), w.FS.openPath path = .ok f →
        f.statRes = .ok true →
        (∀ g : FsFile, w.FS.openPath (joinIndex path) = .ok g →
            wrapperFS.Open w path = .ok f)
      ∧ (∀ err : String, w.FS.openPath (joinIndex path) = .error err →
            wrapperFS.Open w path = .error (f.closeRes.getD err)
          ∧ ∀ g : FsFile, wrapperFS.Open w path ≠ .ok g)) := by
  constructor
  · intro w path err h
    unfold wrapperFS.Open
    rw [h]
  · intro w path f hopen hstat
    constructor
    · intro g hidx
      unfold wrapperFS.Open
      simp only [hopen, hstat, hidx, if_true]
    · intro err hidx
      have hres : wrapperFS.Open w path = .error (f.closeRes.getD err) := by
        unfold wrapperFS.Open
        simp only [hopen, hstat, hidx, if_true]
        cases f.closeRes <;> simp
      exact ⟨hres, fun g hg => by rw [hres] at hg; exact Except.noConfusion hg⟩

/-- Witness for the amended C3 on a concrete store: an absent path is
propagated unchanged. -/
theorem claim_C3_witness :
    wrapperFS.Open storeCloseFails "missing" = .error "file does not exist" :=
  claim_C3_directory_guard.1 storeCloseFails "missing" "file does not exist" rfl

/-! ## Claim C4 -/

/-- Claim C4: a parsed manifest without the vite development dependency makes
analyzePackageJSON return nil, and SetDevelopmentDefaults then returns the
"invalid configuration" error leaving every framework-derived field
untouched (only the project-path default is applied). -/
theorem claim_C4_no_vite_fails (pkg : PackageJSON)
    (hv : lookupDep pkg.devDependencies "vite" = none)
    (pkgOf : String → Except String PackageJSON) (vc : ViteConfig)
    (hp : pkgOf (setIfEmpty vc.JSProjectPath "frontend") = .ok pkg) :
    analyzePackageJSON pkg = none
  ∧ SetDevelopmentDefaults pkgOf vc =
      ({ vc with JSProjectPath := setIfEmpty vc.JSProjectPath "frontend" },
        some "invalid configuration") := by
  have ha : analyzePackageJSON pkg = none := by
    unfold analyzePackageJSON
    rw [hv]
  refine ⟨ha, ?_⟩
  simp [SetDevelopmentDefaults, hp, ha]

/-- Witness for C4 on a manifest with only a react runtime dependency. -/
theorem claim_C4_witness :
    analyzePackageJSON pkgNoVite = none
  ∧ SetDevelopmentDefaults (fun _ => .ok pkgNoVite) {} =
      ({ JSProjectPath := "frontend" }, some "invalid configuration") := by
  have h := claim_C4_no_vite_fails pkgNoVite rfl (fun _ => .ok pkgNoVite) {} rfl
  refine ⟨h.1, ?_⟩
  rw [h.2]
  rfl

/-! ## Claim C5 -/

/-- Claim C5: framework selection walks the fixed ordered list
{vue, react, preact, svelte, lit} and the first match wins, with svelte
looked up only in devDependencies and the others only in dependencies;
in particular a manifest with both vue and react runtime dependencies
resolves to vue. -/
theorem claim_C5_priority_first_match :
    (∀ (pkg : PackageJSON) (out : JSAppParams), analyzePackageJSON pkg = some out →
        out.PackageType = ((supportedFrameworks.find? (matchesFramework pkg)).getD "vanilla"))
  ∧ (analyzePackageJSON pkgVueReact).map (fun o => o.PackageType) = some "vue" := by
  constructor
  · intro pkg out h
    unfold analyzePackageJSON at h
    cases hv : lookupDep pkg.devDependencies "vite"
    · rw [hv] at h
      simp at h
    · rw [hv] at h
      cases h1 : lookupDep pkg.dependencies "vue" <;>
        cases h2 : lookupDep pkg.dependencies "react" <;>
          cases h3 : lookupDep pkg.dependencies "preact" <;>
            cases h4 : lookupDep pkg.devDependencies "svelte" <;>
              cases h5 : lookupDep pkg.dependencies "lit" <;>
                (simp [supportedFrameworks, frameworkLoop, h1, h2, h3, h4, h5] at h
                 subst h
                 simp [matchesFramework, List.find?, h1, h2, h3, h4, h5])
  · rfl

/-- Witness for C5: the react manifest of the spec's scenario satisfies the
first-match characterisation. -/
theorem claim_C5_witness :
    analyzePackageJSON pkgReact = some profReact
  ∧ profReact.PackageType
      = ((supportedFrameworks.find? (matchesFramework pkgReact)).getD "vanilla") := by
  have h1 : analyzePackageJSON pkgReact = some profReact := rfl
  exact ⟨h1, claim_C5_priority_first_match.1 pkgReact profReact h1⟩

/-! ## Claim C6 -/

/-- Claim C6: the profile's entry point is the pure function of the matched
framework and the typed-language flag given by entryPointFor (vue/svelte:
src/main.ts or src/main.js; react/preact: src/main.tsx or src/main.jsx; lit:
empty; vanilla: src/main.ts or root-level main.js). -/
theorem claim_C6_entry_point (pkg : PackageJSON) (out : JSAppParams)
    (h : analyzePackageJSON pkg = some out) :
    out.EntryPoint = entryPointFor out.PackageType out.HasTypeScript := by
  unfold analyzePackageJSON at h
  cases hv : lookupDep pkg.devDependencies "vite"
  · rw [hv] at h
    simp at h
  · rw [hv] at h
    cases h1 : lookupDep pkg.dependencies "vue" <;>
      cases h2 : lookupDep pkg.dependencies "react" <;>
        cases h3 : lookupDep pkg.dependencies "preact" <;>
          cases h4 : lookupDep pkg.devDependencies "svelte" <;>
            cases h5 : lookupDep pkg.dependencies "lit" <;>
              (simp [supportedFrameworks, frameworkLoop, h1, h2, h3, h4, h5] at h
               subst h
               simp [entryPointFor])

/-- Witness for C6 on the react manifest. -/
theorem claim_C6_witness :
    analyzePackageJSON pkgReact = some profReact
  ∧ profReact.EntryPoint = entryPointFor profReact.PackageType profReact.HasTypeScript := by
  have h1 : analyzePackageJSON pkgReact = some profReact := rfl
  exact ⟨h1, claim_C6_entry_point pkgReact profReact h1⟩

/-! ## Claim C7 -/

theorem setIfEmpty_idem (a b : String) : setIfEmpty (setIfEmpty a b) b = setIfEmpty a b := by
  by_cases ha : a = "" <;> simp [setIfEmpty, ha]

theorem setIfEmpty_of_ne (a b : String) (h : a ≠ "") : setIfEmpty a b = a := by
  simp [setIfEmpty, h]

theorem setIfEmpty_ne (a b : String) (h : b ≠ "") : setIfEmpty a b ≠ "" := by
  by_cases ha : a = "" <;> simp [setIfEmpty, ha]
  exact h

/-- applyDevDefaults in closed form: getViteVersion never errors once
DevDefaults is populated, so the DEFAULT_VITE_VERSION branch of the source is
dead there and the pass is a fill-if-empty record update. -/
theorem applyDevDefaults_eq (d : JSAppParams) (vc : ViteConfig) :
    applyDevDefaults d vc =
      { vc with
        DevDefaults := some d
        ViteVersion := if vc.ViteVersion = "" then d.ViteMajorVer else vc.ViteVersion
        Platform := setIfEmpty vc.Platform d.PackageType
        EntryPoint := setIfEmpty vc.EntryPoint d.EntryPoint
        URLPrefix := setIfEmpty vc.URLPrefix "/src/"
        DevServerPort := setIfEmpty vc.DevServerPort
          (if (if vc.ViteVersion = "" then d.ViteMajorVer else vc.ViteVersion) = "2"
            then DEFAULT_PORT_V2 else DEFAULT_PORT_V3)
        DevServerDomain := setIfEmpty vc.DevServerDomain "localhost" } := by
  by_cases hv : vc.ViteVersion = "" <;>
    simp [applyDevDefaults, getViteVersion, hv]

theorem applyDevDefaults_idem (d : JSAppParams) (vc : ViteConfig) :
    applyDevDefaults d (applyDevDefaults d vc) = applyDevDefaults d vc := by
  rw [applyDevDefaults_eq d vc, applyDevDefaults_eq]
  by_cases hv : vc.ViteVersion = "" <;> by_cases hm : d.ViteMajorVer = "" <;>
    simp [hv, hm, setIfEmpty_idem]

theorem applyDevDefaults_JSProjectPath (d : JSAppParams) (vc : ViteConfig) :
    (applyDevDefaults d vc).JSProjectPath = vc.JSProjectPath := by
  rw [applyDevDefaults_eq]

/-- SetDevelopmentDefaults with its let bindings resolved. -/
theorem SetDevelopmentDefaults_eq (pkgOf : String → Except String PackageJSON)
    (vc : ViteConfig) :
    SetDevelopmentDefaults pkgOf vc =
      match pkgOf (setIfEmpty vc.JSProjectPath "frontend") with
      | .error e =>
          ({ vc with JSProjectPath := setIfEmpty vc.JSProjectPath "frontend" }, some e)
      | .ok pkgJSON =>
        match analyzePackageJSON pkgJSON with
        | none =>
            ({ vc with JSProjectPath := setIfEmpty vc.JSProjectPath "frontend" },
              some "invalid configuration")
        | some defaults =>
            (applyDevDefaults defaults
              { vc with JSProjectPath := setIfEmpty vc.JSProjectPath "frontend" }, none) :=
  rfl

/-- Counterexample to C7 as stated: SetDevelopmentDefaults overwrites the
operator-set cached framework profile (DevDefaults) unconditionally. -/
theorem claim_C7_counterexample :
    (SetDevelopmentDefaults (fun _ => .ok pkgVueReact)
        { DevDefaults := some profOperator }).fst.DevDefaults
      ≠ some profOperator := by
  decide

/-- Claim C7 (amended): both resolution passes are idempotent — once a pass
has succeeded, running it again on its result is a no-op — and every
operator-set field except the cached framework profile DevDefaults, which
SetDevelopmentDefaults unconditionally recomputes from the manifest, is never
overwritten (fields the pass does not touch are preserved unconditionally). -/
theorem claim_C7_idempotent_defaults :
    (∀ (pkgOf : String → Except String PackageJSON) (vc vc' : ViteConfig),
      SetDevelopmentDefaults pkgOf vc = (vc', none) →
        SetDevelopmentDefaults pkgOf vc' = (vc', none)
      ∧ (vc.JSProjectPath ≠ "" → vc'.JSProjectPath = vc.JSProjectPath)
      ∧ (vc.Platform ≠ "" → vc'.Platform = vc.Platform)
      ∧ (vc.EntryPoint ≠ "" → vc'.EntryPoint = vc.EntryPoint)
      ∧ ( vc.URLPrefix ≠ "" → vc'.URLPrefix = vc.URLPrefix)
      ∧ (vc.DevServerPort ≠ "" → vc'.DevServerPort = vc.DevServerPort)
      ∧ (vc.DevServerDomain ≠ "" → vc'.DevServerDomain = vc.DevServerDomain)
      ∧ (vc.ViteVersion ≠ "" → vc'.ViteVersion = vc.ViteVersion)
      ∧ vc'.Environment = vc.Environment
      ∧ vc'.AssetsPath = vc.AssetsPath
      ∧ vc'.HTTPS = vc.HTTPS)
  ∧ (∀ vc : ViteConfig,
      SetProductionDefaults (SetProductionDefaults vc).fst
        = ((SetProductionDefaults vc).fst, none)
      ∧ (vc.JSProjectPath ≠ "" → (SetProductionDefaults vc).fst.JSProjectPath = vc.JSProjectPath)
      ∧ (vc.AssetsPath ≠ "" → (SetProductionDefaults vc).fst.AssetsPath = vc.AssetsPath)
      ∧ ( vc.URLPrefix ≠ "" → (SetProductionDefaults vc).fst.URLPrefix = vc.URLPrefix)) := by
  constructor
  · intro pkgOf vc vc' h
    rw [SetDevelopmentDefaults_eq] at h
    cases hp : pkgOf (setIfEmpty vc.JSProjectPath "frontend") with
    | error e =>
      simp only [hp] at h
      exact absurd (congrArg Prod.snd h) (by simp)
    | ok pkg =>
      simp only [hp] at h
      cases han : analyzePackageJSON pkg with
      | none =>
        simp only [han] at h
        exact absurd (congrArg Prod.snd h) (by simp)
      | some d =>
        simp only [han] at h
        have hvc' : vc' = applyDevDefaults d
            { vc with JSProjectPath := setIfEmpty vc.JSProjectPath "frontend" } :=
          (congrArg Prod.fst h).symm
        have hJ : vc'.JSProjectPath = setIfEmpty vc.JSProjectPath "frontend" := by
          rw [hvc', applyDevDefaults_JSProjectPath]
        have hJne : vc'.JSProjectPath ≠ "" := by
          rw [hJ]
          exact setIfEmpty_ne _ _ (by decide)
        have hstep : setIfEmpty vc'.JSProjectPath "frontend" = vc'.JSProjectPath :=
          setIfEmpty_of_ne _ _ hJne
        have hscr : pkgOf (setIfEmpty vc'.JSProjectPath "frontend") = Except.ok pkg := by
          rw [hstep, hJ]
          exact hp
        have hrec : ({ vc' with JSProjectPath := setIfEmpty vc'.JSProjectPath "frontend" }
            : ViteConfig) = vc' := by
          rw [hstep]
        refine ⟨?_, ?_, ?_, ?_, ?_, ?_, ?_, ?_, ?_, ?_, ?_⟩
        · rw [SetDevelopmentDefaults_eq]
          simp only [hscr, han, hrec]
          rw [hvc', applyDevDefaults_idem]
        · intro hne
          rw [hJ]
          exact setIfEmpty_of_ne _ _ hne
        · intro hne
          rw [hvc', applyDevDefaults_eq]
          exact setIfEmpty_of_ne _ _ hne
        · intro hne
          rw [hvc', applyDevDefaults_eq]
          exact setIfEmpty_of_ne _ _ hne
        · intro hne
          rw [hvc', applyDevDefaults_eq]
          exact setIfEmpty_of_ne _ _ hne
        · intro hne
          rw [hvc', applyDevDefaults_eq]
          exact setIfEmpty_of_ne _ _ hne
        · intro hne
          rw [hvc', applyDevDefaults_eq]
          exact setIfEmpty_of_ne _ _ hne
        · intro hne
          rw [hvc', applyDevDefaults_eq]
          simp [hne]
        · rw [hvc', applyDevDefaults_eq]
        · rw [hvc', applyDevDefaults_eq]
        · rw [hvc', applyDevDefaults_eq]
  · intro vc
    refine ⟨?_, ?_, ?_, ?_⟩
    · simp [SetProductionDefaults, setIfEmpty_idem]
    · intro hne
      simp [SetProductionDefaults, setIfEmpty_of_ne _ _ hne]
    · intro hne
      simp [SetProductionDefaults, setIfEmpty_of_ne _ _ hne]
    · intro hne
      simp [SetProductionDefaults, setIfEmpty_of_ne _ _ hne]

/-- Witness for the amended C7: the development pass is a no-op on its own
output for the react manifest, and the production pass on its own output. -/
theorem claim_C7_witness :
    SetDevelopmentDefaults (fun _ => .ok pkgReact) vcReactDev = (vcReactDev, none)
  ∧ SetProductionDefaults (SetProductionDefaults {}).fst
      = ((SetProductionDefaults {}).fst, none) := by
  refine ⟨?_, (claim_C7_idempotent_defaults.2 {}).1⟩
  exact (claim_C7_idempotent_defaults.1 (fun _ => .ok pkgReact) {} vcReactDev (by decide)).1

/-! ## Claim C8 -/

/-- Claim C8: when the operator has not set the dev-server port,
SetDevelopmentDefaults sets it exactly as the claim's rule prescribes — the
"3000"-class port when the governing major version is "2", otherwise the
newer port, with unset/unparseable versions falling back to the hardcoded
build-tool version constant for this decision (the code reaches the same
port through the empty major version, and the constant is not "2"). -/
theorem claim_C8_port_rule (pkgOf : String → Except String PackageJSON)
    (vc : ViteConfig) (pkg : PackageJSON) (dd : JSAppParams)
    (hport : vc.DevServerPort = "")
    (hp : pkgOf (setIfEmpty vc.JSProjectPath "frontend") = .ok pkg)
    (han : analyzePackageJSON pkg = some dd) :
    (SetDevelopmentDefaults pkgOf vc).fst.DevServerPort
      = claimedDevPort vc.ViteVersion dd.ViteMajorVer := by
  simp only [SetDevelopmentDefaults_eq, hp, han, applyDevDefaults_eq]
  by_cases hv : vc.ViteVersion = "" <;> by_cases hm : dd.ViteMajorVer = "" <;>
    simp [claimedDevPort, setIfEmpty, hport, hv, hm, DEFAULT_VITE_VERSION]

/-- Witness for C8: a legacy (major "2") manifest on an empty configuration
selects the "3000"-class port. -/
theorem claim_C8_witness :
    (SetDevelopmentDefaults (fun _ => .ok pkgViteTwo) {}).fst.DevServerPort
      = claimedDevPort ({} : ViteConfig).ViteVersion profViteTwo.ViteMajorVer
  ∧ claimedDevPort ({} : ViteConfig).ViteVersion profViteTwo.ViteMajorVer = DEFAULT_PORT_V2 := by
  refine ⟨claim_C8_port_rule (fun _ => .ok pkgViteTwo) {} pkgViteTwo profViteTwo rfl rfl ?_, by decide⟩
  decide

/-! ## Claim C9 -/

/-- Counterexample to C9 as stated: a request rejected by the hidden-segment
filter is handled by the asset handler but emits no access-log line at all
(logRequest wraps only the inner file server, not the guard layer). -/
theorem claim_C9_counterexample :
    (guardedFileServer { Environment := "development" } envOK
        { path := "/.secret/x.js" }).accessLogs.length = 0 :=
  rfl

/-- Claim C9 (amended): every request that reaches the environment dispatch
(not rejected by the hidden-segment filter, not the preamble special case,
not short-circuited by a debug enumeration failure) and whose serving branch
succeeds gets exactly one access-log line, emitted after the downstream
handler completed, containing the remote address, protocol, method, the
CR/LF-stripped request URI of the request handed to the file server (in
development the mount-prefix-stripped request), and the last WriteHeader
status, 200 when the downstream handler never called WriteHeader; requests
short-circuited earlier get no access-log line. -/
theorem claim_C9_access_log (vg : VitGo) (env : ServeEnv) (r : HRequest)
    (hdot : (splitSlash (stripLeading r.path)).any isHiddenStem = false)
    (hpre : (splitSlash (stripLeading r.path)).getLastD "" ≠ "preamble.js")
    (hdebug : vg.Debug = true → ∃ names, env.readDirRoot = .ok names) :
    (vg.Environment = "production" →
      ∀ serveSub, env.sub vg.AssetPath = .ok serveSub →
        (guardedFileServer vg env r).accessLogs
          = [accessLineFor r (capturedRetCode (serveSub r).headerWrites)])
  ∧ (vg.Environment ≠ "production" → hasSlashFirst r.path = true →
      (guardedFileServer vg env r).accessLogs
        = [accessLineFor { r with path := stripLeading r.path }
            (capturedRetCode
              ((env.serveDev { r with path := stripLeading r.path }).headerWrites))]) := by
  have hmain : guardedFileServer vg env r = dispatchServe vg env r := by
    unfold guardedFileServer
    simp only [hdot, Bool.false_eq_true, if_false, if_neg hpre]
    cases hd : vg.Debug
    · simp
    · obtain ⟨names, hn⟩ := hdebug hd
      simp [hn]
  constructor
  · intro hprod serveSub hsub
    rw [hmain]
    unfold dispatchServe
    simp [hprod, hsub, logRequest]
  · intro hdev hslash
    rw [hmain]
    unfold dispatchServe
    simp [if_neg hdev, hslash, logRequest]

/-- Witness for the amended C9: a development-mode request is logged with the
stripped URI and the captured status. -/
theorem claim_C9_witness :
    (guardedFileServer { Environment := "development" } envOK
        { path := "/app.js", remoteAddr := "1.2.3.4", proto := "HTTP/1.1", method := "GET" }).accessLogs
      = [accessLineFor
          { path := "app.js", remoteAddr := "1.2.3.4", proto := "HTTP/1.1", method := "GET" }
          (capturedRetCode
            ((envOK.serveDev
              { path := "app.js", remoteAddr := "1.2.3.4", proto := "HTTP/1.1", method := "GET" }).headerWrites))] := by
  exact (claim_C9_access_log { Environment := "development" } envOK
      { path := "/app.js", remoteAddr := "1.2.3.4", proto := "HTTP/1.1", method := "GET" }
      (by decide) (by decide)
      (fun _ => ⟨["index.html", "app.js"], rfl⟩)).2 (by decide) (by decide)

/-! ## Claim C10 -/

theorem frameworkLoop_ViteMajorVer (pkg : PackageJSON) (l : List String)
    (out : JSAppParams) :
    (frameworkLoop pkg l out).ViteMajorVer = out.ViteMajorVer := by
  induction l generalizing out with
  | nil => rfl
  | cons p restList ih =>
    unfold frameworkLoop
    by_cases hs : p = "svelte"
    · cases hl : lookupDep pkg.devDependencies "svelte" <;> simp [hs, hl, ih]
    · cases hl : lookupDep pkg.dependencies p
      · simp [hs, hl, ih]
      · simp only [hs, hl, if_false, if_neg hs]
        split <;> try rfl
        split <;> try rfl
        split <;> try rfl
        split <;> rfl

theorem analyzePackageJSON_ViteMajorVer (pkg : PackageJSON) (vstr : String)
    (out : JSAppParams)
    (hv : lookupDep pkg.devDependencies "vite" = some vstr)
    (h : analyzePackageJSON pkg = some out) :
    out.ViteMajorVer = (getSemVer vstr).fst := by
  unfold analyzePackageJSON at h
  simp only [hv] at h
  rw [← apply_ite Option.some] at h
  injection h with h
  subst h
  split <;> simp [frameworkLoop_ViteMajorVer]

theorem getSemVer_fst_digits (s : String) :
    ∀ c ∈ ((getSemVer s).fst).data, c.isDigit = true := by
  intro c hc
  unfold getSemVer at hc
  dsimp only at hc
  split at hc
  · simp at hc
  · split at hc
    · split at hc
      · simp at hc
      · split at hc
        · split at hc
          · simp at hc
          · exact List.mem_takeWhile_imp hc
        · simp at hc
    · simp at hc

/-- Claim C10 (implicit): when SetDevelopmentDefaults succeeds on a
configuration whose ViteVersion was unset, that field afterwards holds
exactly the major version extracted from the manifest's vite entry (the
empty string when the entry does not match the semantic-version pattern),
and that string consists of digits only — never the full version string. -/
theorem claim_C10_vite_major_only (pkgOf : String → Except String PackageJSON)
    (vc : ViteConfig) (pkg : PackageJSON) (vstr : String) (dd : JSAppParams)
    (hvv : vc.ViteVersion = "")
    (hp : pkgOf (setIfEmpty vc.JSProjectPath "frontend") = .ok pkg)
    (hv : lookupDep pkg.devDependencies "vite" = some vstr)
    (han : analyzePackageJSON pkg = some dd) :
    (SetDevelopmentDefaults pkgOf vc).fst.ViteVersion = (getSemVer vstr).fst
  ∧ ∀ c ∈ ((getSemVer vstr).fst).data, c.isDigit = true := by
  refine ⟨?_, getSemVer_fst_digits vstr⟩
  have hdd : dd.ViteMajorVer = (getSemVer vstr).fst :=
    analyzePackageJSON_ViteMajorVer pkg vstr dd hv han
  simp only [SetDevelopmentDefaults_eq, hp, han, applyDevDefaults_eq]
  simp [hvv, hdd]

/-- Witness for C10: the manifest entry "^4.1.0" leaves ViteVersion = "4". -/
theorem claim_C10_witness :
    (SetDevelopmentDefaults (fun _ => .ok pkgReact) {}).fst.ViteVersion
      = (getSemVer "^4.1.0").fst
  ∧ (getSemVer "^4.1.0").fst = "4" := by
  refine ⟨(claim_C10_vite_major_only (fun _ => .ok pkgReact) {} pkgReact "^4.1.0" profReact
    rfl rfl rfl rfl).1, by decide⟩
